/-
Verification of the agentic-RAG orchestration core of the Chat_Agents
repository (backend/app/agents/agentic_rag/graph/...): the data model
(ImageDocument, GraphState), the graph nodes (retrieve, grade_documents,
web_search, generate), the grading chains, and the orchestration graph's
transition structure, shallowly embedded in Lean 4.

External LLM classifiers and adapters are modelled as oracle parameters
returning `Except PyError α`: `.error e` models a raised Python exception,
`.ok v` a normal return.  All control flow around those calls is translated
directly from the Python source.
-/
import Mathlib

namespace ChatAgents

/-- A Python exception value (only its identity matters for control flow).
`attributeError` models Python's `AttributeError` raised when an attribute
lookup such as `.invoke` fails on an object that does not have it. -/
inductive PyError where
  | exn : String → PyError
  | attributeError : String → PyError
deriving DecidableEq, Repr

/-- Result of a Python call: normal return or raised exception. -/
abbrev PyResult (α : Type) := Except PyError α

/-- A dynamic metadata value (Python dict values used by this code are
strings or ints). -/
inductive MVal where
  | str : String → MVal
  | int : Int → MVal
deriving DecidableEq, Repr

/-- An open metadata mapping, as the Python `Dict[str, Any]`: an association
list looked up by key. -/
abbrev Metadata := List (String × MVal)

/-- `m.get(k)`: first binding of key `k`, `none` when absent. -/
def metaGet (m : Metadata) (k : String) : Option MVal :=
  (m.find? (fun p => p.1 == k)).map (fun p => p.2)

/-- `ImageDocument` from `state.py`: `page_content` (base64 data URL or
plain text), `page_number`, and the open `metadata` dict.  `page_number`
is kept as a dynamic value because `retrieve` fills it with
`doc.metadata.get("page", 0)`. -/
structure ImageDocument where
  page_content : String
  page_number : MVal
  metadata : Metadata
deriving DecidableEq, Repr

/-- `doc.get("metadata", {}).get("type") == "text"`: the test used
throughout the code to recognise web-search (text) documents; anything
else counts as image-bearing. -/
def isTextDoc (d : ImageDocument) : Bool :=
  metaGet d.metadata "type" == some (.str "text")

/-- `GraphState` from `state.py`: the session state threaded through the
graph. -/
structure GraphState where
  question : String
  generation : String
  web_search : Bool
  documents : List ImageDocument
deriving Repr

/-! ## grade_documents (nodes/grade_documents.py)

The relevance classifier `retrieval_grader` is an oracle
`grader : String → ImageDocument → PyResult String` giving the
`binary_score` string for a (question, document) pair, or a raised
exception. -/

/-- Python's `str.lower()` (as in `grade.lower()`), written as a
character-wise map so that it evaluates inside the kernel. -/
def pyLower (s : String) : String :=
  ⟨s.data.map Char.toLower⟩

/-- The body of the `for doc in documents` loop of `grade_documents`:
returns the pair (`filtered_docs`, `web_search`).  A grade whose lowercase
form is `"yes"` keeps the document; any other grade drops it and sets
`web_search = True`; a raised exception keeps the document (fail open) and
the loop continues with the remaining documents. -/
def gradeDocumentsLoop (grader : String → ImageDocument → PyResult String)
    (question : String) : List ImageDocument → List ImageDocument × Bool
  | [] => ([], false)
  | d :: ds =>
    let rest := gradeDocumentsLoop grader question ds
    match grader question d with
    | .ok grade =>
      if pyLower grade == "yes" then (d :: rest.1, rest.2)
      else (rest.1, true)
    | .error _ => (d :: rest.1, rest.2)

/-- `grade_documents`: grades each document and returns the replacement
state fields `{documents, question, web_search}`. -/
def grade_documents (grader : String → ImageDocument → PyResult String)
    (question : String) (documents : List ImageDocument) : GraphState :=
  let r := gradeDocumentsLoop grader question documents
  { question := question, generation := "", web_search := r.2, documents := r.1 }

/-- The filtered list is a sublist of the input. -/
theorem gradeDocumentsLoop_sublist (grader : String → ImageDocument → PyResult String)
    (q : String) (docs : List ImageDocument) :
    (gradeDocumentsLoop grader q docs).1.Sublist docs := by
  induction docs with
  | nil => simp [gradeDocumentsLoop]
  | cons d ds ih =>
    simp only [gradeDocumentsLoop]
    cases h : grader q d with
    | ok g =>
      by_cases hy : pyLower g == "yes"
      · simpa [h, hy] using List.Sublist.cons₂ d ih
      · simpa [h, hy] using List.Sublist.cons d ih
    | error e => simpa [h] using List.Sublist.cons₂ d ih

/-- If some document is graded (without exception) anything other than
`"yes"`, the loop reports `web_search = true`. -/
theorem gradeDocumentsLoop_web_search (grader : String → ImageDocument → PyResult String)
    (q : String) (docs : List ImageDocument)
    (h : ∃ d ∈ docs, ∃ g, grader q d = .ok g ∧ pyLower g ≠ "yes") :
    (gradeDocumentsLoop grader q docs).2 = true := by
  induction docs with
  | nil => simp at h
  | cons d ds ih =>
    rcases h with ⟨d', hd', g, hg, hne⟩
    rcases List.mem_cons.mp hd' with rfl | hmem
    · simp only [gradeDocumentsLoop, hg]
      have : (pyLower g == "yes") = false := by
        simpa [beq_iff_eq] using hne
      simp [this]
    · have h2 := ih ⟨d', hmem, g, hg, hne⟩
      simp only [gradeDocumentsLoop]
      cases hgr : grader q d with
      | ok g0 =>
        by_cases hy : pyLower g0 == "yes" <;> simp [hy, h2]
      | error e => simp [h2]

/-- C2: for every question and document list, `grade_documents` returns a
filtered list that is a subsequence of the input (so its length is at most
the input length, input order is preserved, and no foreign document
appears), and it returns `web_search = true` whenever at least one document
is graded irrelevant (a non-`"yes"` grade), regardless of the other grades. -/
theorem grade_documents_spec (grader : String → ImageDocument → PyResult String)
    (q : String) (docs : List ImageDocument) :
    (grade_documents grader q docs).documents.Sublist docs ∧
    (grade_documents grader q docs).documents.length ≤ docs.length ∧
    ((∃ d ∈ docs, ∃ g, grader q d = .ok g ∧ pyLower g ≠ "yes") →
      (grade_documents grader q docs).web_search = true) := by
  refine ⟨gradeDocumentsLoop_sublist grader q docs,
    (gradeDocumentsLoop_sublist grader q docs).length_le, ?_⟩
  intro h
  exact gradeDocumentsLoop_web_search grader q docs h

/-- Concrete document used by witnesses below. -/
def docA : ImageDocument :=
  { page_content := "data:image/png;base64,AAA", page_number := .int 1, metadata := [] }

/-- Concrete document used by witnesses below. -/
def docB : ImageDocument :=
  { page_content := "data:image/png;base64,BBB", page_number := .int 2, metadata := [] }

/-- A concrete grader marking `docB` irrelevant and everything else
relevant. -/
def graderNoB : String → ImageDocument → PyResult String :=
  fun _ d => if d == docB then .ok "no" else .ok "yes"

/-- Witness for C2 at a concrete batch where `docB` is graded irrelevant. -/
theorem grade_documents_spec_witness :
    (grade_documents graderNoB "q" [docA, docB]).documents.Sublist [docA, docB] ∧
    (grade_documents graderNoB "q" [docA, docB]).web_search = true := by
  have h := grade_documents_spec graderNoB "q" [docA, docB]
  exact ⟨h.1, h.2.2 ⟨docB, by simp, "no", by simp [graderNoB], by decide⟩⟩

/-- Splitting the batch: the loop processes independent documents
independently. -/
theorem gradeDocumentsLoop_append (grader : String → ImageDocument → PyResult String)
    (q : String) (xs ys : List ImageDocument) :
    gradeDocumentsLoop grader q (xs ++ ys) =
      ((gradeDocumentsLoop grader q xs).1 ++ (gradeDocumentsLoop grader q ys).1,
       (gradeDocumentsLoop grader q xs).2 || (gradeDocumentsLoop grader q ys).2) := by
  induction xs with
  | nil => simp [gradeDocumentsLoop]
  | cons d ds ih =>
    simp only [List.cons_append, gradeDocumentsLoop]
    cases h : grader q d with
    | ok g => by_cases hy : pyLower g == "yes" <;> simp [h, hy, ih]
    | error e => simp [h, ih]

/-- C5: if grading document `d` raises an exception, `grade_documents`
keeps `d` in the filtered output at its position (fail open) and the
remaining documents are still graded exactly as they would be on their own. -/
theorem grade_documents_fail_open (grader : String → ImageDocument → PyResult String)
    (q : String) (xs ys : List ImageDocument) (d : ImageDocument) (e : PyError)
    (hd : grader q d = .error e) :
    (grade_documents grader q (xs ++ d :: ys)).documents =
      (grade_documents grader q xs).documents
        ++ d :: (grade_documents grader q ys).documents ∧
    (grade_documents grader q (xs ++ d :: ys)).web_search =
      ((grade_documents grader q xs).web_search
        || (grade_documents grader q ys).web_search) := by
  have hsplit := gradeDocumentsLoop_append grader q xs (d :: ys)
  have hstep : gradeDocumentsLoop grader q (d :: ys) =
      (d :: (gradeDocumentsLoop grader q ys).1, (gradeDocumentsLoop grader q ys).2) := by
    simp [gradeDocumentsLoop, hd]
  constructor
  · simp [grade_documents, hsplit, hstep]
  · simp [grade_documents, hsplit, hstep]

/-- A concrete grader raising an exception on `docB` and grading everything
else relevant. -/
def graderBoomB : String → ImageDocument → PyResult String :=
  fun _ d => if d == docB then .error (.exn "classifier down") else .ok "yes"

/-- Witness for C5: with grading of `docB` failing, `docB` is kept between
its neighbours and the batch still completes. -/
theorem grade_documents_fail_open_witness :
    (grade_documents graderBoomB "q" ([docA] ++ docB :: [docA])).documents =
      (grade_documents graderBoomB "q" [docA]).documents
        ++ docB :: (grade_documents graderBoomB "q" [docA]).documents ∧
    (grade_documents graderBoomB "q" ([docA] ++ docB :: [docA])).web_search =
      ((grade_documents graderBoomB "q" [docA]).web_search
        || (grade_documents graderBoomB "q" [docA]).web_search) :=
  grade_documents_fail_open graderBoomB "q" [docA] [docA] docB (.exn "classifier down")
    (by simp [graderBoomB])

/-! ## web_search (nodes/web_search.py)

`web_search_tool.invoke({"query": question})["results"]` is modelled as an
adapter oracle `adapter : String → PyResult (List String)` returning the
`content` field of each Tavily result, or a raised exception when the
adapter is unavailable.  `web_search.py` wraps the call in no
`try`/`except`, so an adapter exception propagates out of the node. -/

/-- The metadata attached to the web-search document:
`{"source": "web_search", "type": "text"}`. -/
def webSearchMetadata : Metadata :=
  [("source", .str "web_search"), ("type", .str "text")]

/-- The successful body of `web_search`: joins the snippet contents with
`"\n"`, wraps them as one `ImageDocument` with `page_number = -1`, and
appends it to the existing documents (`documents.append(web_doc)` when the
list is non-empty, `[web_doc]` otherwise). -/
def webSearchBody (tavily_results : List String) (question : String)
    (documents : List ImageDocument) : List ImageDocument × String :=
  let joined_tavily_result := String.intercalate "\n" tavily_results
  let web_doc : ImageDocument :=
    { page_content := joined_tavily_result
      page_number := .int (-1)
      metadata := webSearchMetadata }
  if documents.isEmpty then ([web_doc], question)
  else (documents ++ [web_doc], question)

/-- The `web_search` node: invoking the adapter may raise, and the raise
is not caught. -/
def web_search (adapter : String → PyResult (List String))
    (question : String) (documents : List ImageDocument) :
    PyResult (List ImageDocument × String) :=
  match adapter question with
  | .error e => .error e
  | .ok tavily_results => .ok (webSearchBody tavily_results question documents)

/-- C6: the successful web_search body returns exactly the prior documents
followed by one new document whose content is the newline-join of the
snippets, with `page_number = -1` and metadata
`{source: "web_search", type: "text"}`. -/
theorem web_search_appends (tavily_results : List String) (question : String)
    (documents : List ImageDocument) :
    webSearchBody tavily_results question documents =
      (documents ++
        [{ page_content := String.intercalate "\n" tavily_results
           page_number := .int (-1)
           metadata := webSearchMetadata }], question) := by
  by_cases h : documents.isEmpty
  · have : documents = [] := List.isEmpty_iff.mp h
    simp [webSearchBody, this]
  · simp [webSearchBody, h]

/-- The concrete adapter failure used below. -/
def tavilyDown : PyError := .exn "TavilySearch unavailable"

/-- C7 counterexample: with a failing adapter, `web_search` propagates the
exception; it does not return a state containing an empty-snippet
document, so the claimed degradation does not exist in the code. -/
theorem web_search_failure_propagates_concrete :
    web_search (fun _ => .error tavilyDown) "any question" [] =
      .error tavilyDown := by
  rfl

/-- C7 amended: whenever the Web Search Adapter invocation fails, the
`web_search` node raises that same exception out of the node (a turn
failure); no fallback document is produced. -/
theorem web_search_failure_propagates (adapter : String → PyResult (List String))
    (question : String) (documents : List ImageDocument) (e : PyError)
    (h : adapter question = .error e) :
    web_search adapter question documents = .error e := by
  simp [web_search, h]

/-- Witness for the amended C7 at a concrete failing adapter. -/
theorem web_search_failure_propagates_witness :
    web_search (fun _ => .error tavilyDown) "q" [docA] = .error tavilyDown :=
  web_search_failure_propagates (fun _ => .error tavilyDown) "q" [docA] tavilyDown rfl

/-! ## retrieve (nodes/retrieve.py)

The vector-store retriever returns langchain documents with
`page_content` and `metadata`; `retrieve` converts each to an
`ImageDocument`, taking `page_number` from `metadata.get("page", 0)`. -/

/-- A document as returned by `retriever.invoke(question)`. -/
structure RetrievedDoc where
  page_content : String
  metadata : Metadata
deriving DecidableEq, Repr

/-- The `for doc in documents` conversion loop of `retrieve`. -/
def retrieveLoop : List RetrievedDoc → List ImageDocument
  | [] => []
  | doc :: rest =>
    { page_content := doc.page_content
      page_number := (metaGet doc.metadata "page").getD (.int 0)
      metadata := doc.metadata } :: retrieveLoop rest

/-- The `retrieve` node: runs the retriever (which may raise — adapter
errors propagate) and converts its results one-for-one. -/
def retrieve (retriever : String → PyResult (List RetrievedDoc))
    (question : String) : PyResult (List ImageDocument × String) :=
  match retriever question with
  | .error e => .error e
  | .ok documents => .ok (retrieveLoop documents, question)

/-- C9 (core): the conversion is exactly an order-preserving one-for-one
map: same length, and the `i`-th output is the `i`-th input converted,
with `page_number` looked up from the adapter metadata under `"page"` and
defaulted to `0` when absent. -/
theorem retrieveLoop_map (documents : List RetrievedDoc) :
    (retrieveLoop documents).length = documents.length ∧
    (∀ i : Nat, (retrieveLoop documents)[i]? =
      (documents[i]?).map (fun doc =>
        { page_content := doc.page_content
          page_number := (metaGet doc.metadata "page").getD (.int 0)
          metadata := doc.metadata })) := by
  induction documents with
  | nil => simp [retrieveLoop]
  | cons doc rest ih =>
    refine ⟨by simp [retrieveLoop, ih.1], ?_⟩
    intro i
    cases i with
    | zero => simp [retrieveLoop]
    | succ n => simpa [retrieveLoop] using ih.2 n

/-- C9: `retrieve` on a successful retriever call neither filters nor
reorders (one-for-one map, length preserved), and a document whose adapter
metadata has no `"page"` key gets `page_number = 0`. -/
theorem retrieve_spec (retriever : String → PyResult (List RetrievedDoc))
    (question : String) (documents : List RetrievedDoc)
    (h : retriever question = .ok documents) :
    retrieve retriever question = .ok (retrieveLoop documents, question) ∧
    (retrieveLoop documents).length = documents.length ∧
    (∀ i : Nat, (retrieveLoop documents)[i]? =
      (documents[i]?).map (fun doc =>
        { page_content := doc.page_content
          page_number := (metaGet doc.metadata "page").getD (.int 0)
          metadata := doc.metadata })) ∧
    (∀ i : Nat, ∀ doc ∈ documents[i]?, metaGet doc.metadata "page" = none →
      ∀ d ∈ (retrieveLoop documents)[i]?, d.page_number = .int 0) := by
  refine ⟨by simp [retrieve, h], (retrieveLoop_map documents).1,
    (retrieveLoop_map documents).2, ?_⟩
  intro i doc hdoc hnone d hd
  have := (retrieveLoop_map documents).2 i
  rw [this] at hd
  cases hmem : documents[i]? with
  | none => rw [hmem] at hd; simp at hd
  | some doc' =>
    rw [hmem] at hdoc hd
    simp at hdoc hd
    subst hdoc
    rw [← hd, hnone]
    rfl

/-- A concrete retrieved document with an explicit page number. -/
def retrievedWithPage : RetrievedDoc :=
  { page_content := "data:image/png;base64,CCC", metadata := [("page", .int 4)] }

/-- A concrete retrieved document with no `"page"` key. -/
def retrievedNoPage : RetrievedDoc :=
  { page_content := "data:image/png;base64,DDD", metadata := [("source", .str "x")] }

/-- Witness for C9 at a concrete retriever output of two documents, one
without a `"page"` key. -/
theorem retrieve_spec_witness :
    retrieve (fun _ => .ok [retrievedWithPage, retrievedNoPage]) "q" =
      .ok (retrieveLoop [retrievedWithPage, retrievedNoPage], "q") ∧
    (retrieveLoop [retrievedWithPage, retrievedNoPage]).length = 2 ∧
    ∀ d ∈ (retrieveLoop [retrievedWithPage, retrievedNoPage])[1]?,
      d.page_number = .int 0 := by
  have h := retrieve_spec (fun _ => .ok [retrievedWithPage, retrievedNoPage]) "q"
    [retrievedWithPage, retrievedNoPage] rfl
  refine ⟨h.1, h.2.1, ?_⟩
  intro d hd
  exact h.2.2.2 1 retrievedNoPage (by decide) (by decide) d hd

/-! ## Node-name constants (graph/consts.py)

Modelled from the spec: `consts.py` is referenced by `graph.py`
(`from .consts import GENERATE, GRADE_DOCUMENTS, RETRIEVE, WEBSEARCH`) but
the file itself is not part of the sources at hand; spec §4.7 names the
states `RETRIEVE, GRADE_DOCUMENTS, GENERATE, WEBSEARCH, END` and §4.1
gives the router labels `vectorstore`/`websearch`, so the constants are
the corresponding distinct lowercase node-name strings (`WEBSEARCH` must
equal the router label `"websearch"` for `route_question`'s comparison
`source.datasource == WEBSEARCH` to fire). -/

/-- Modelled from the spec: node-name constant for the Retrieve node. -/
def RETRIEVE : String := "retrieve"

/-- Modelled from the spec: node-name constant for the GradeDocuments node. -/
def GRADE_DOCUMENTS : String := "grade_documents"

/-- Modelled from the spec: node-name constant for the Generate node. -/
def GENERATE : String := "generate"

/-- Modelled from the spec: node-name constant for the WebSearch node. -/
def WEBSEARCH : String := "websearch"

/-- LangGraph's terminal sentinel `END` (a node name distinct from every
node added to the workflow). -/
def END : String := "__end__"

/-! ## Query router (chains/router.py and graph.py route_question)

`router.py` builds `question_router` at import time: when the Google LLM
client initialises, `question_router` is the langchain runnable
`route_prompt | structured_llm_router`; when initialisation fails
(`llm = None`), `question_router` is the plain Python function
`default_router`.  `graph.py` then calls `question_router.invoke(...)`. -/

/-- `RouteQuery` (router.py): the structured router output; `datasource`
is constrained by the pydantic `Literal` to `"vectorstore"` or
`"websearch"` when produced by the LLM chain. -/
structure RouteQuery where
  datasource : String
deriving DecidableEq, Repr

/-- The `question_router` object: a langchain runnable (which has an
`invoke` method) or a plain Python function (which does not). -/
inductive QuestionRouter where
  | runnable : (String → PyResult RouteQuery) → QuestionRouter
  | plainFunction : (String → RouteQuery) → QuestionRouter

/-- `question_router.invoke({"question": question})`: on a runnable this
runs the chain (which itself may raise); on a plain Python function the
attribute lookup `.invoke` raises `AttributeError`. -/
def QuestionRouter.invokeMethod : QuestionRouter → String → PyResult RouteQuery
  | .runnable chain, question => chain question
  | .plainFunction _, _ =>
    .error (.attributeError "\x27function\x27 object has no attribute \x27invoke\x27")

/-- `default_router` (router.py): always answers `vectorstore`. -/
def default_router (_inputs : String) : RouteQuery :=
  { datasource := "vectorstore" }

/-- The module-level construction of `question_router`: the LLM chain when
the client initialised, the bare function `default_router` otherwise. -/
def question_router (llmChain : Option (String → PyResult RouteQuery)) :
    QuestionRouter :=
  match llmChain with
  | some chain => .runnable chain
  | none => .plainFunction default_router

/-- `route_question` (graph.py): invokes the router — with no
`try`/`except` — and maps `websearch ↦ WEBSEARCH`, `vectorstore ↦
RETRIEVE`; any other datasource falls off the end of the function
(Python returns `None`). -/
def route_question (router : QuestionRouter) (question : String) :
    PyResult (Option String) :=
  match router.invokeMethod question with
  | .error e => .error e
  | .ok source =>
    if source.datasource == WEBSEARCH then .ok (some WEBSEARCH)
    else if source.datasource == "vectorstore" then .ok (some RETRIEVE)
    else .ok none

/-- C4 (code behaviour at the failing input): when the routing LLM is
unavailable, `question_router` is the plain function `default_router`, and
`route_question` raises `AttributeError` instead of returning the
RETRIEVE default — the turn fails. -/
theorem route_question_unavailable_raises :
    route_question (question_router none) "hello" =
      .error (.attributeError "\x27function\x27 object has no attribute \x27invoke\x27") := by
  rfl

/-- The runnable path also propagates classifier failures: `route_question`
wraps the invocation in no exception handler. -/
theorem route_question_runnable_failure_propagates (e : PyError) (q : String) :
    route_question (question_router (some (fun _ => .error e))) q = .error e := by
  rfl

/-! ## Composite gate (graph.py
grade_generation_grounded_in_documents_and_question)

The two classifiers are oracles returning `binary_score : Bool` or a
raised exception: `hg` for `hallucination_grader(...)` and `ag` for
`answer_grader.invoke(...)` (an `ag` error also covers
`answer_grader = None`, where `.invoke` raises `AttributeError`). -/

/-- `grade_generation_grounded_in_documents_and_question`: filters the
image-bearing documents, checks grounding (trivially grounded when there
are none), then answer quality; the whole body is wrapped in
`try ... except` returning `"useful"` on any raised exception. -/
def grade_generation_grounded_in_documents_and_question
    (hg : List ImageDocument → String → PyResult Bool)
    (ag : String → String → PyResult Bool) (state : GraphState) : String :=
  let image_documents := state.documents.filter (fun doc => !(isTextDoc doc))
  let hallucination_grade : PyResult Bool :=
    if image_documents.isEmpty then .ok true
    else hg image_documents state.generation
  match hallucination_grade with
  | .error _ => "useful"
  | .ok grade =>
    if grade then
      match ag state.question state.generation with
      | .error _ => "useful"
      | .ok answer_grade => if answer_grade then "useful" else "not useful"
    else "not supported"

/-- The pure outcome table of the gate: first argument is the (effective)
grounding result, second the answer-classification result. -/
def gateOutcome : PyResult Bool → PyResult Bool → String
  | .error _, _ => "useful"
  | .ok grade, agr =>
    if grade then
      match agr with
      | .error _ => "useful"
      | .ok answer_grade => if answer_grade then "useful" else "not useful"
    else "not supported"

/-- Unfolding the gate into its outcome table (the answer classifier is a
pure oracle, so evaluating it eagerly is sound). -/
theorem gate_unfold (hg : List ImageDocument → String → PyResult Bool)
    (ag : String → String → PyResult Bool) (state : GraphState) :
    grade_generation_grounded_in_documents_and_question hg ag state =
      gateOutcome
        (if (state.documents.filter (fun doc => !(isTextDoc doc))).isEmpty
          then .ok true
          else hg (state.documents.filter (fun doc => !(isTextDoc doc)))
            state.generation)
        (ag state.question state.generation) := by
  have h0 : grade_generation_grounded_in_documents_and_question hg ag state =
      (match (if (state.documents.filter (fun doc => !(isTextDoc doc))).isEmpty
          then (.ok true : PyResult Bool)
          else hg (state.documents.filter (fun doc => !(isTextDoc doc)))
            state.generation) with
        | .error _ => "useful"
        | .ok grade =>
          if grade then
            match ag state.question state.generation with
            | .error _ => "useful"
            | .ok answer_grade => if answer_grade then "useful" else "not useful"
          else "not supported") := rfl
  rw [h0]
  cases (if (state.documents.filter (fun doc => !(isTextDoc doc))).isEmpty
      then (.ok true : PyResult Bool)
      else hg (state.documents.filter (fun doc => !(isTextDoc doc)))
        state.generation) with
  | error e => rfl
  | ok grade => rfl

/-- The outcome table only produces the three closed-set labels. -/
theorem gateOutcome_mem (r a : PyResult Bool) :
    gateOutcome r a ∈ (["not supported", "useful", "not useful"] : List String) := by
  cases r with
  | error e => simp [gateOutcome]
  | ok grade =>
    cases grade with
    | false => simp [gateOutcome]
    | true =>
      cases a with
      | error e => simp [gateOutcome]
      | ok answer_grade => cases answer_grade <;> simp [gateOutcome]

/-- With effective grounding `ok true`, the gate cannot say
`"not supported"`. -/
theorem gateOutcome_ok_true_ne (a : PyResult Bool) :
    gateOutcome (.ok true) a ≠ "not supported" := by
  cases a with
  | error e => simp [gateOutcome]
  | ok answer_grade => cases answer_grade <;> simp [gateOutcome]

/-- C3: the gate always returns one of the three labels; it returns
`"useful"` whenever the grounding classifier raises or whenever the answer
classifier is reached and raises; and with no image-bearing documents the
generation is trivially grounded, so `"not supported"` is impossible. -/
theorem grade_generation_gate (hg : List ImageDocument → String → PyResult Bool)
    (ag : String → String → PyResult Bool) (state : GraphState) :
    (grade_generation_grounded_in_documents_and_question hg ag state ∈
      (["not supported", "useful", "not useful"] : List String)) ∧
    (∀ e, state.documents.filter (fun doc => !(isTextDoc doc)) ≠ [] →
      hg (state.documents.filter (fun doc => !(isTextDoc doc))) state.generation
        = .error e →
      grade_generation_grounded_in_documents_and_question hg ag state = "useful") ∧
    (∀ e, (if (state.documents.filter (fun doc => !(isTextDoc doc))).isEmpty
        then (.ok true : PyResult Bool)
        else hg (state.documents.filter (fun doc => !(isTextDoc doc)))
          state.generation) = .ok true →
      ag state.question state.generation = .error e →
      grade_generation_grounded_in_documents_and_question hg ag state = "useful") ∧
    ((state.documents.filter (fun doc => !(isTextDoc doc))).isEmpty →
      grade_generation_grounded_in_documents_and_question hg ag state
        ≠ "not supported") := by
  refine ⟨?_, ?_, ?_, ?_⟩
  · rw [gate_unfold]
    exact gateOutcome_mem _ _
  · intro e hne herr
    have hempty : (state.documents.filter (fun doc => !(isTextDoc doc))).isEmpty
        = false := by
      simpa [List.isEmpty_iff] using hne
    rw [gate_unfold, hempty]
    simp only [Bool.false_eq_true, if_false]
    rw [herr]
    rfl
  · intro e hok hag
    rw [gate_unfold, hok, hag]
    rfl
  · intro hempty
    rw [gate_unfold, hempty]
    simpa using gateOutcome_ok_true_ne (ag state.question state.generation)

/-- A concrete state with one image document, used by the gate witness. -/
def gateState : GraphState :=
  { question := "q", generation := "an answer", web_search := false,
    documents := [docA] }

/-- Witness for C3 at a concrete state whose grounding classifier raises:
the gate returns `"useful"`. -/
theorem grade_generation_gate_witness :
    grade_generation_grounded_in_documents_and_question
      (fun _ _ => .error (.exn "grader down")) (fun _ _ => .ok true) gateState
      = "useful" :=
  (grade_generation_gate (fun _ _ => .error (.exn "grader down"))
      (fun _ _ => .ok true) gateState).2.1 (.exn "grader down")
    (by decide) rfl

/-! ## Generation chain (chains/generation.py)

The multimodal request is a list of message parts (`parts` in the
source): image parts for the image-bearing documents and a final text
part carrying the instruction prompt built from the question. -/

/-- One element of the `HumanMessage` content list. -/
inductive Part where
  | image_url : String → Part
  | text : String → Part
deriving DecidableEq, Repr

/-- The `prompt_text` f-string of `generation_chain`. -/
def generation_prompt (question : String) : String :=
  "Based on the images provided above, please answer the following question: "
    ++ question
    ++ "\n\nInstructions:\n1. Carefully examine all the images provided\n2. Provide a comprehensive and accurate answer based on what you can observe in the images\n3. If the information needed to answer the question is not clearly visible in the images, state this clearly\n4. Be specific and reference details you can see in the images when possible\n5. If multiple images are provided, consider information from all of them in your answer\n\nQuestion: "
    ++ question ++ "\n\nAnswer:"

/-- The `for doc in documents` loop of `generation_chain`: every document
whose metadata type is not `"text"` contributes an `image_url` part; text
documents are skipped. -/
def generationImageParts : List ImageDocument → List Part
  | [] => []
  | doc :: rest =>
    if isTextDoc doc then generationImageParts rest
    else .image_url doc.page_content :: generationImageParts rest

/-- The full content list of the generation request: the image parts
followed by the single text part holding `prompt_text`. -/
def generation_parts (question : String) (documents : List ImageDocument) :
    List Part :=
  generationImageParts documents ++ [.text (generation_prompt question)]

/-- `generation_chain`: when the LLM client failed to initialise it
returns the fixed error string; otherwise it sends the assembled parts (a
raised LLM exception propagates to the `generate` node, which catches it). -/
def generation_chain (llm : Option (List Part → PyResult String))
    (question : String) (context : List ImageDocument) : PyResult String :=
  match llm with
  | none => .ok "Error: LLM not initialized. Please check your API key configuration."
  | some invoke_llm => invoke_llm (generation_parts question context)

/-- The image parts are exactly the image-bearing documents in order. -/
theorem generationImageParts_eq (documents : List ImageDocument) :
    generationImageParts documents =
      (documents.filter (fun doc => !(isTextDoc doc))).map
        (fun doc => Part.image_url doc.page_content) := by
  induction documents with
  | nil => simp [generationImageParts]
  | cons doc rest ih =>
    by_cases h : isTextDoc doc <;> simp [generationImageParts, h, ih, List.filter]

/-- A concrete web-search-style text document carrying a snippet. -/
def webTextDoc : ImageDocument :=
  { page_content := "WEB_SNIPPET_CONTENT", page_number := .int (-1),
    metadata := webSearchMetadata }

/-- C8 counterexample: the generation request built over a batch holding a
text document is identical to the request built with that document absent,
and in particular the document text appears in no part — contradicting the
claim that the text of a text-bearing document still informs the prompt
context. -/
theorem generation_text_doc_has_no_influence_concrete :
    generation_parts "q" [docA, webTextDoc] = generation_parts "q" [docA] ∧
    (Part.text "WEB_SNIPPET_CONTENT") ∉ generation_parts "q" [docA, webTextDoc] := by
  refine ⟨rfl, ?_⟩
  decide

/-- C8 amended: every image-bearing document contributes an image input in
input order; text-bearing documents are excluded entirely (the request is
the same as if they were absent, so their text does not inform the prompt);
the question is carried by the final text part, which closes the request. -/
theorem generation_parts_spec (question : String) (documents : List ImageDocument) :
    generation_parts question documents =
      generation_parts question (documents.filter (fun doc => !(isTextDoc doc))) ∧
    (∀ doc ∈ documents, isTextDoc doc = false →
      Part.image_url doc.page_content ∈ generation_parts question documents) ∧
    (generation_parts question documents).getLast? =
      some (.text (generation_prompt question)) ∧
    generationImageParts documents =
      (documents.filter (fun doc => !(isTextDoc doc))).map
        (fun doc => Part.image_url doc.page_content) := by
  refine ⟨?_, ?_, ?_, generationImageParts_eq documents⟩
  · unfold generation_parts
    rw [generationImageParts_eq, generationImageParts_eq, List.filter_filter]
    simp
  · intro doc hmem htype
    unfold generation_parts
    rw [generationImageParts_eq]
    refine List.mem_append.mpr (Or.inl ?_)
    exact List.mem_map.mpr ⟨doc, List.mem_filter.mpr ⟨hmem, by simp [htype]⟩, rfl⟩
  · unfold generation_parts
    simp [List.getLast?_append]

/-- Witness for the amended C8 at a concrete two-document batch. -/
theorem generation_parts_spec_witness :
    generation_parts "q" [docA, webTextDoc] =
      generation_parts "q" ([docA, webTextDoc].filter (fun doc => !(isTextDoc doc))) ∧
    Part.image_url docA.page_content ∈ generation_parts "q" [docA, webTextDoc] ∧
    (generation_parts "q" [docA, webTextDoc]).getLast? =
      some (.text (generation_prompt "q")) := by
  have h := generation_parts_spec "q" [docA, webTextDoc]
  exact ⟨h.1, h.2.1 docA (by simp) (by decide), h.2.2.1⟩

/-! ## Hallucination grader request (chains/hallucination_grader.py)

The classifier builds its own parts list; the loop counts appended images
and stops adding once `image_count` reaches 3. -/

/-- The grading prompt f-string of `hallucination_grader`. -/
def hallucination_prompt (generation : String) : String :=
  "You are a grader assessing whether an LLM generation is grounded in / supported by the images provided above.\n\nGeneration to evaluate: "
    ++ generation
    ++ "\n\nInstructions:\n1. Carefully examine the images provided above\n2. Determine if the generation is supported by what you can see in the images\n3. Look for specific details, facts, or information in the images that support or contradict the generation\n4. Give a binary score \x27yes\x27 or \x27no\x27. \x27Yes\x27 means that the answer is grounded in / supported by the set of images\n\nRespond with just \x27yes\x27 if the generation is grounded in the images, or \x27no\x27 if it is not grounded."

/-- The `for doc in documents` loop of `hallucination_grader`: a document
is appended as an image part only when its metadata type is not `"text"`
and fewer than 3 images have been appended so far; `image_count` advances
only on append. -/
def hallucinationImageParts : List ImageDocument → Nat → List Part
  | [], _ => []
  | doc :: rest, image_count =>
    if !(isTextDoc doc) && image_count < 3 then
      .image_url doc.page_content :: hallucinationImageParts rest (image_count + 1)
    else
      hallucinationImageParts rest image_count

/-- The full content list of the hallucination-grading request. -/
def hallucination_parts (documents : List ImageDocument) (generation : String) :
    List Part :=
  hallucinationImageParts documents 0 ++ [.text (hallucination_prompt generation)]

/-- Closed form of the image loop: starting from count `c`, the appended
image parts are the first `3 - c` image-bearing documents in order. -/
theorem hallucinationImageParts_eq (documents : List ImageDocument) (c : Nat) :
    hallucinationImageParts documents c =
      ((documents.filter (fun doc => !(isTextDoc doc))).take (3 - c)).map
        (fun doc => Part.image_url doc.page_content) := by
  induction documents generalizing c with
  | nil => simp [hallucinationImageParts]
  | cons doc rest ih =>
    by_cases htype : isTextDoc doc
    · simp [hallucinationImageParts, htype, ih, List.filter]
    · by_cases hc : c < 3
      · have hstep : hallucinationImageParts (doc :: rest) c =
            .image_url doc.page_content :: hallucinationImageParts rest (c + 1) := by
          simp [hallucinationImageParts, htype, hc]
        have h3 : 3 - c = (3 - (c + 1)) + 1 := by omega
        rw [hstep, ih, h3]
        simp [List.filter_cons, htype]
      · have hstep : hallucinationImageParts (doc :: rest) c =
            hallucinationImageParts rest c := by
          simp [hallucinationImageParts, htype, hc]
        have h0 : 3 - c = 0 := by omega
        rw [hstep, ih, h0]
        simp

/-- C10: the hallucination-grading request contains image parts for
exactly the first 3 image-bearing documents in input order, and the
request is literally the one built from that truncated subset — every
image-bearing document after the third is absent from the request and so
cannot influence the verdict. -/
theorem hallucination_parts_spec (documents : List ImageDocument)
    (generation : String) :
    hallucination_parts documents generation =
      ((documents.filter (fun doc => !(isTextDoc doc))).take 3).map
        (fun doc => Part.image_url doc.page_content)
        ++ [.text (hallucination_prompt generation)] ∧
    hallucination_parts documents generation =
      hallucination_parts
        ((documents.filter (fun doc => !(isTextDoc doc))).take 3) generation := by
  have h1 : hallucination_parts documents generation =
      ((documents.filter (fun doc => !(isTextDoc doc))).take 3).map
        (fun doc => Part.image_url doc.page_content)
        ++ [.text (hallucination_prompt generation)] := by
    unfold hallucination_parts
    rw [hallucinationImageParts_eq]
  refine ⟨h1, ?_⟩
  rw [h1]
  unfold hallucination_parts
  rw [hallucinationImageParts_eq]
  have hall : ∀ doc ∈ (documents.filter (fun d => !(isTextDoc d))).take 3,
      (fun d => !(isTextDoc d)) doc = true := by
    intro doc hdoc
    have hmem := List.mem_of_mem_take hdoc
    simpa using List.of_mem_filter hmem
  rw [List.filter_eq_self.mpr hall]
  rw [List.take_take]
  simp

/-! ## Orchestration graph wiring (graph.py, lines 84–125)

`workflow` adds the four nodes, a conditional entry point on
`route_question`, the unconditional edges `RETRIEVE → GRADE_DOCUMENTS` and
`WEBSEARCH → GENERATE`, and conditional edges out of `GRADE_DOCUMENTS`
(keyed by `decide_to_generate`) and `GENERATE` (keyed by the composite
gate).  The resulting step relation on node names is embedded below; the
gate's classifier oracles are threaded through unchanged. -/

/-- `decide_to_generate` (graph.py): web search requested ⇒ `WEBSEARCH`,
otherwise `GENERATE`. -/
def decide_to_generate (state : GraphState) : String :=
  if state.web_search then WEBSEARCH else GENERATE

/-- The conditional-entry mapping `{WEBSEARCH: WEBSEARCH, RETRIEVE: RETRIEVE}`. -/
def entry_point_edges (label : String) : Option String :=
  if label == WEBSEARCH then some WEBSEARCH
  else if label == RETRIEVE then some RETRIEVE
  else none

/-- The conditional-edge mapping out of `GRADE_DOCUMENTS`:
`{WEBSEARCH: WEBSEARCH, GENERATE: GENERATE}`. -/
def grade_documents_edges (label : String) : Option String :=
  if label == WEBSEARCH then some WEBSEARCH
  else if label == GENERATE then some GENERATE
  else none

/-- The conditional-edge mapping out of `GENERATE`:
`{"not supported": GENERATE, "useful": END, "not useful": WEBSEARCH}`. -/
def generate_edges (label : String) : Option String :=
  if label == "not supported" then some GENERATE
  else if label == "useful" then some END
  else if label == "not useful" then some WEBSEARCH
  else none

/-- The step relation of the compiled workflow on node names: the
successor of each node given the current state and the gate's classifier
oracles (`none` for `END` and for names that are not nodes of the graph). -/
def graphStep (hg : List ImageDocument → String → PyResult Bool)
    (ag : String → String → PyResult Bool)
    (state : GraphState) (node : String) : Option String :=
  if node == RETRIEVE then some GRADE_DOCUMENTS
  else if node == GRADE_DOCUMENTS then
    grade_documents_edges (decide_to_generate state)
  else if node == GENERATE then
    generate_edges (grade_generation_grounded_in_documents_and_question hg ag state)
  else if node == WEBSEARCH then some GENERATE
  else none

/-- C1: the step relation is exactly the specified transition table:
`RETRIEVE` always steps to `GRADE_DOCUMENTS`; `WEBSEARCH` always steps to
`GENERATE`; `GRADE_DOCUMENTS` steps to `WEBSEARCH` when `web_search` is
set and to `GENERATE` otherwise; and `GENERATE` steps on the gate label —
`useful ↦ END`, `not supported ↦ GENERATE` (retry loop), `not useful ↦
WEBSEARCH`. -/
theorem graph_transition_table (hg : List ImageDocument → String → PyResult Bool)
    (ag : String → String → PyResult Bool) (state : GraphState) :
    graphStep hg ag state RETRIEVE = some GRADE_DOCUMENTS ∧
    graphStep hg ag state WEBSEARCH = some GENERATE ∧
    graphStep hg ag state GRADE_DOCUMENTS =
      some (if state.web_search then WEBSEARCH else GENERATE) ∧
    graphStep hg ag state GENERATE =
      some (if grade_generation_grounded_in_documents_and_question hg ag state
            = "useful" then END
        else if grade_generation_grounded_in_documents_and_question hg ag state
            = "not supported" then GENERATE
        else WEBSEARCH) := by
  refine ⟨?_, ?_, ?_, ?_⟩
  · simp [graphStep]
  · simp [graphStep, RETRIEVE, GRADE_DOCUMENTS, GENERATE, WEBSEARCH]
  · simp only [graphStep, decide_to_generate, grade_documents_edges]
    by_cases hws : state.web_search = true
    · simp [hws, RETRIEVE, GRADE_DOCUMENTS, GENERATE, WEBSEARCH]
    · have hws' : state.web_search = false := by simpa using hws
      simp [hws', RETRIEVE, GRADE_DOCUMENTS, GENERATE, WEBSEARCH]
  · have hmem : grade_generation_grounded_in_documents_and_question hg ag state ∈
        (["not supported", "useful", "not useful"] : List String) := by
      rw [gate_unfold]
      exact gateOutcome_mem _ _
    simp only [List.mem_cons, List.mem_singleton, List.not_mem_nil, or_false] at hmem
    rcases hmem with h | h | h <;>
      simp [graphStep, generate_edges, h,
        RETRIEVE, GRADE_DOCUMENTS, GENERATE, WEBSEARCH, END]

end ChatAgents
